import Mathlib

/-!
Verification development for the Welcome Nights presentation backend.

The definitions below are a shallow embedding of the Python sources
`src/backend/app/slide_builder.py`, `src/backend/app/crud.py`,
`src/backend/app/schemas.py`, `src/backend/app/main.py` and
`src/backend/app/presentation_export.py`.  Pure functions become Lean
functions; the database is an explicit record of association lists;
fallible code returns `Except String`.
-/

/-- JSON-like values, covering exactly the shapes that occur in the slide
payloads built by `slide_builder.py`: strings, integers, `None`, lists of
strings, and lists of flat objects whose fields are all strings. -/
inductive JVal where
  | str (s : String)
  | num (n : Int)
  | null
  | strList (xs : List String)
  | objList (xs : List (List (String × String)))
deriving DecidableEq, Repr

/-- `models.Brand` — only the columns the embedded code reads.
`primary_color` and `logo_url` are nullable columns. -/
structure Brand where
  id : Int
  name : String
  primary_color : Option String
  logo_url : Option String
deriving DecidableEq, Repr

/-- `models.Facility` — only the columns the embedded code reads.
Coordinates are nullable float columns; the code never does arithmetic on
them, it only tests Python truthiness (`None` and `0.0` are falsy), so they
are embedded as `Option Int` with `some 0` standing for `0.0`. -/
structure Facility where
  id : Int
  name : String
  latitude : Option Int
  longitude : Option Int
deriving DecidableEq, Repr

/-- `models.Game` — only the columns the embedded code reads.
`rules` is a nullable text column. -/
structure Game where
  id : Int
  title : String
  rules : Option String
deriving DecidableEq, Repr

/-- `models.Asset` — only the columns the embedded code reads.  Note the
model declares no `facility_id` column (see `build_slides`). -/
structure Asset where
  brand_id : Option Int
  asset_type : String
  url : String
deriving DecidableEq, Repr

/-- `models.Presentation` — only the columns the embedded code reads. -/
structure Presentation where
  id : Int
  brand_id : Int
  facility_id : Int
deriving DecidableEq, Repr

/-- One slide dict as produced by `generate_av3_slides`:
`{"order": ..., "slide_type": ..., "payload": {...}, "notes": ...}`.
The payload dict is an association list in insertion order. -/
structure SlideInstance where
  order : Nat
  slide_type : String
  payload : List (String × JVal)
  notes : String
deriving DecidableEq, Repr

/-- `models.PresentationSlide` — the persisted row, as filled in by
`crud.bulk_create_slides`. -/
structure PresentationSlide where
  presentation_id : Int
  order : Nat
  slide_type : String
  payload : List (String × JVal)
  notes : String
deriving DecidableEq, Repr

/-- Python `a or b` on optional strings: `None` and `""` are falsy. -/
def pyOrStr (a b : Option String) : Option String :=
  match a with
  | some s => if s = "" then b else some s
  | none => b

/-- Python `a or d` with a string literal default (`brand.primary_color or
"#0b7280"`). -/
def pyOrDefault (a : Option String) (d : String) : String :=
  match a with
  | some s => if s = "" then d else s
  | none => d

/-- Embed an optional string column value into a payload slot
(`None` becomes JSON null). -/
def jstrOpt (a : Option String) : JVal :=
  match a with
  | some s => JVal.str s
  | none => JVal.null

/-- Python `str.title()` restricted to the single-word strings it is applied
to in the source (`CORE_VALUES` entries): first character upper-cased, the
rest lower-cased. -/
def pyTitle (s : String) : String :=
  match s.data with
  | [] => ""
  | c :: cs => String.mk (c.toUpper :: cs.map Char.toLower)

/-- `slide_builder.AV3_SLIDE_TYPES`: the 25 slide types of the AV3 template,
in order. -/
def AV3_SLIDE_TYPES : List String :=
  ["TitleSlide", "WelcomeSlide", "IcebreakerGame", "HistoryIntro",
   "HistoryTimeline", "FootprintStats", "RegionsMap", "CultureIntro",
   "CultureComparison", "FieldIntro", "RaffleBumper", "TransitionSlide",
   "ValueFamily", "ChallengeGame", "ValueOwnership", "ChallengeGame",
   "ValueResponsibility", "ChallengeGame", "ValueCelebration", "ChallengeGame",
   "ValueExperience", "ChallengeGame", "ThreePillars", "RaffleBumper",
   "EndSlide"]

/-- One entry of `slide_builder.DEFAULT_CHALLENGES`. -/
structure DefaultChallenge where
  title : String
  value : String
  rules : String
deriving DecidableEq, Repr

/-- `slide_builder.DEFAULT_CHALLENGES`: built-in games for each challenge
slot. -/
def DEFAULT_CHALLENGES : List DefaultChallenge :=
  [{ title := "Cookie", value := "FAMILY",
     rules := "Place cookie on forehead, move it to mouth without hands" },
   { title := "Cup Stacking", value := "OWNERSHIP",
     rules := "Stack cups into pyramid, then back down" },
   { title := "Marshmallows", value := "RESPONSIBILITY",
     rules := "Move marshmallows with chopsticks" },
   { title := "Pencils", value := "CELEBRATION",
     rules := "Balance pencils on back of hands" },
   { title := "Flip Cup", value := "EXPERIENCE",
     rules := "Drink and flip cup upside down" }]

/-- `slide_builder.CORE_VALUES`. -/
def CORE_VALUES : List String :=
  ["FAMILY", "OWNERSHIP", "RESPONSIBILITY", "CELEBRATION", "EXPERIENCE"]

/-- One iteration of the `for i, value in enumerate(CORE_VALUES)` loop in
`generate_av3_slides` (lines 314-358): append a value slide, then a
challenge slide taken from the next unused selected game if one remains
(`challenge_index < len(challenge_games)`, embedded as `List.get?`) and
from `DEFAULT_CHALLENGES[i]` otherwise.  The accumulator carries
`(slides, challenge_index)`. -/
def vcStep (pc : String) (challenge_games : List Game)
    (acc : List SlideInstance × Nat) (iv : Nat × String) :
    List SlideInstance × Nat :=
  let i := iv.1
  let v := iv.2
  let slides := acc.1 ++
    [{ order := acc.1.length,
       slide_type := "Value" ++ pyTitle v,
       payload := [("value", JVal.str v), ("primary_color", JVal.str pc)],
       notes := "Value: " ++ v }]
  match challenge_games.get? acc.2 with
  | some game =>
    (slides ++
      [{ order := slides.length,
         slide_type := "ChallengeGame",
         payload :=
           [("title", JVal.str ("Challenge " ++ toString (i + 1) ++ ": " ++ game.title)),
            ("game_title", JVal.str game.title),
            ("rules", jstrOpt game.rules),
            ("value", JVal.str v),
            ("challenge_number", JVal.num (Int.ofNat (i + 1))),
            ("primary_color", JVal.str pc)],
         notes := "Challenge " ++ toString (i + 1) ++ ": " ++ game.title }],
     acc.2 + 1)
  | none =>
    -- `DEFAULT_CHALLENGES[i]`: always in bounds here since `i < 5`
    let dflt := (DEFAULT_CHALLENGES.get? i).getD { title := "", value := "", rules := "" }
    (slides ++
      [{ order := slides.length,
         slide_type := "ChallengeGame",
         payload :=
           [("title", JVal.str ("Challenge " ++ toString (i + 1) ++ ": " ++ dflt.title)),
            ("game_title", JVal.str dflt.title),
            ("rules", JVal.str dflt.rules),
            ("value", JVal.str v),
            ("challenge_number", JVal.num (Int.ofNat (i + 1))),
            ("primary_color", JVal.str pc)],
         notes := "Challenge " ++ toString (i + 1) ++ ": " ++ dflt.title }],
     acc.2)

/-- The icebreaker slide of `generate_av3_slides` (slide 3, order 2): the
resolved icebreaker game when one was found, else the built-in Musical
Chairs fallback. -/
def av3IcebreakerSlide (primary_color : String) (icebreaker_game : Option Game) :
    SlideInstance :=
  match icebreaker_game with
  | some g =>
    { order := 2,
      slide_type := "IcebreakerGame",
      payload :=
        [("title", JVal.str ("Let\x27s break the ice…Game 1: " ++ g.title)),
         ("game_title", JVal.str g.title),
         ("rules", jstrOpt g.rules),
         ("primary_color", JVal.str primary_color)],
      notes := "Icebreaker: " ++ g.title }
  | none =>
    { order := 2,
      slide_type := "IcebreakerGame",
      payload :=
        [("title", JVal.str "Let\x27s break the ice…Game 1: Musical Chairs"),
         ("game_title", JVal.str "Musical Chairs"),
         ("rules", JVal.str "5 Players\nMusic plays, players walk\nMusic stops, players sit\nPlayer without a chair is eliminated\nLast player with a seat wins"),
         ("primary_color", JVal.str primary_color)],
      notes := "Icebreaker: Musical Chairs" }

/-- `slide_builder.generate_av3_slides`: builds the full AV3 slide list.
Orders follow the source exactly: slides 1-10 carry literal orders `0`-`9`,
raffle #1 carries literal order `10` and is emitted only when
`raffle_count >= 1`, the transition slide carries the literal order `11`,
and every later slide uses `len(slides)` at the moment it is appended. -/
def generate_av3_slides (brand : Brand) (facility : Facility)
    (facility_logo : Option String) (icebreaker_game : Option Game)
    (challenge_games : List Game) (raffle_count : Int) : List SlideInstance :=
  let primary_color := pyOrDefault brand.primary_color "#0b7280"
  let icebreakerSlide := av3IcebreakerSlide primary_color icebreaker_game
  let slides : List SlideInstance :=
    [{ order := 0,
       slide_type := "TitleSlide",
       payload :=
         [("brand_name", JVal.str brand.name),
          ("facility_name", JVal.str facility.name),
          ("logo_url", jstrOpt (pyOrStr facility_logo brand.logo_url))],
       notes := "Title slide with facility logo" },
     { order := 1,
       slide_type := "WelcomeSlide",
       payload :=
         [("title", JVal.str "Welcome to Culture Night!!!"),
          ("bullets", JVal.strList
            ["We are excited to introduce " ++ brand.name ++ " to you all!",
             "Help yourself to food and drinks!",
             "We want this to be fun!!!",
             "We have raffles and games with prizes, so be ready to participate!"]),
          ("primary_color", JVal.str primary_color)],
       notes := "Welcome everyone to Culture Night" },
     icebreakerSlide,
     { order := 3,
       slide_type := "HistoryIntro",
       payload := [("brand_name", JVal.str brand.name)],
       notes := "History intro image" },
     { order := 4,
       slide_type := "HistoryTimeline",
       payload :=
         [("title", JVal.str ("The " ++ brand.name ++ " \"Family\"")),
          ("events", JVal.objList
            [[("date", "March 2015"), ("text", "Company founded")],
             [("date", "October 2021"), ("text", "Expansion began")],
             [("date", "December 2025"), ("text", "Continued growth")]]),
          ("primary_color", JVal.str primary_color)],
       notes := "Company history timeline" },
     { order := 5,
       slide_type := "FootprintStats",
       payload :=
         [("title", JVal.str "OUR GROWING FOOTPRINT"),
          ("stats", JVal.objList
            [[("value", "65+"), ("label", "Facilities")],
             [("value", "5"), ("label", "States")],
             [("value", "5,000+"), ("label", "Team Members")]]),
          ("primary_color", JVal.str primary_color)],
       notes := "Company footprint statistics" },
     { order := 6,
       slide_type := "RegionsMap",
       payload :=
         [("title", JVal.str "5 Healthcare Company Regions"),
          ("regions", JVal.objList
            [[("name", "prior_lake"), ("label", "Prior Lake")],
             [("name", "portland"), ("label", "Portland")],
             [("name", "olympia"), ("label", "Olympia")],
             [("name", "boise"), ("label", "Boise")],
             [("name", "denver"), ("label", "Denver")]]),
          ("primary_color", JVal.str primary_color)],
       notes := "Regional map" },
     { order := 7,
       slide_type := "CultureIntro",
       payload :=
         [("title", JVal.str "WE ARE NOT CORPORATE!"),
          ("subtitle", JVal.str ("The " ++ brand.name ++ " Way…")),
          ("primary_color", JVal.str primary_color)],
       notes := "Culture intro - we are not corporate" },
     { order := 8,
       slide_type := "CultureComparison",
       payload :=
         [("left_title", JVal.str "The Common Way…"),
          ("right_title", JVal.str ("The " ++ brand.name ++ " Way…")),
          ("comparisons", JVal.objList
            [[("common", "Technically we can\x27t do that…"),
              ("ours", "Let\x27s figure it out together!")],
             [("common", "It\x27s not my job."),
              ("ours", "We are all part of the same team!")],
             [("common", "That\x27s above my pay grade."),
              ("ours", "Let me connect you with someone who can help!")]]),
          ("primary_color", JVal.str primary_color)],
       notes := "Common way vs our way comparison" },
     { order := 9,
       slide_type := "FieldIntro",
       payload :=
         [("title", JVal.str "Field"),
          ("primary_color", JVal.str primary_color)],
       notes := "Field intro transition" }]
  let slides :=
    if 1 ≤ raffle_count then
      slides ++
        [{ order := 10,
           slide_type := "RaffleBumper",
           payload :=
             [("title", JVal.str "RAFFLE"),
              ("subtitle", JVal.str "Time to draw a winner!"),
              ("raffle_number", JVal.num 1)],
           notes := "Raffle #1" }]
    else slides
  let slides := slides ++
    [{ order := 11,
       slide_type := "TransitionSlide",
       payload := [],
       notes := "Transition slide" }]
  let slides := (CORE_VALUES.enum.foldl (vcStep primary_color challenge_games) (slides, 0)).1
  let slides := slides ++
    [{ order := slides.length,
       slide_type := "ThreePillars",
       payload :=
         [("title", JVal.str "3 Pillars"),
          ("pillars", JVal.objList
            [[("name", "Clinical"), ("description", "Excellence in patient care")],
             [("name", "Cultural"), ("description", "Our people and values")],
             [("name", "Financial"), ("description", "Sustainable success")]]),
          ("primary_color", JVal.str primary_color)],
       notes := "Three pillars closing" }]
  let slides :=
    if 2 ≤ raffle_count then
      slides ++
        [{ order := slides.length,
           slide_type := "RaffleBumper",
           payload :=
             [("title", JVal.str "RAFFLE"),
              ("subtitle", JVal.str "Time to draw another winner!"),
              ("raffle_number", JVal.num 2)],
           notes := "Raffle #2" }]
    else slides
  slides ++
    [{ order := slides.length,
       slide_type := "EndSlide",
       payload :=
         [("brand_name", JVal.str brand.name),
          ("facility_name", JVal.str facility.name),
          ("logo_url", jstrOpt (pyOrStr facility_logo brand.logo_url))],
       notes := "End slide with logo" }]

/-- The ordered list of `slide_type` tags of a built slide list. -/
def slideTypes (slides : List SlideInstance) : List String :=
  slides.map (·.slide_type)

/-- The database as a read-only snapshot of association lists, standing for
the SQLAlchemy session the CRUD layer queries. -/
structure Db where
  presentations : List Presentation
  brands : List Brand
  facilities : List Facility
  assets : List Asset
  games : List Game
deriving DecidableEq, Repr

/-- `crud.get_presentation`: first row with the given id, if any. -/
def get_presentation (db : Db) (presentation_id : Int) : Option Presentation :=
  db.presentations.find? (fun p => p.id == presentation_id)

/-- `crud.get_brand`. -/
def get_brand (db : Db) (brand_id : Int) : Option Brand :=
  db.brands.find? (fun b => b.id == brand_id)

/-- `crud.get_facility`. -/
def get_facility (db : Db) (facility_id : Int) : Option Facility :=
  db.facilities.find? (fun f => f.id == facility_id)

/-- `crud.get_game`. -/
def get_game (db : Db) (game_id : Int) : Option Game :=
  db.games.find? (fun g => g.id == game_id)

/-- `crud.get_assets`: each filter is applied only when its argument is
Python-truthy (`if brand_id:` / `if asset_type:`), and the SQL equality
`Asset.brand_id == brand_id` never matches a NULL column. -/
def get_assets (db : Db) (brand_id : Int) (asset_type : String) : List Asset :=
  let q := db.assets
  let q := if brand_id ≠ 0 then q.filter (fun a => a.brand_id == some brand_id) else q
  if asset_type ≠ "" then q.filter (fun a => a.asset_type == asset_type) else q

/-- `crud.bulk_create_slides`: persists each built slide dict as a row,
copying the dict's own `order` value unchanged (no renumbering). -/
def bulk_create_slides (presentation_id : Int) (slides : List SlideInstance) :
    List PresentationSlide :=
  slides.map (fun s =>
    { presentation_id := presentation_id, order := s.order,
      slide_type := s.slide_type, payload := s.payload, notes := s.notes })

/-- The build configuration dict passed to `slide_builder.build_slides`.
`none` stands for an absent key.  (A key that is present but bound to JSON
null is not modelled; for `raffle_count` that input would make the Python
comparison `None >= 1` raise.)  The four `include_*` keys can be present in
the dict — the API layer always sends them — but `build_slides` never reads
them. -/
structure Config where
  raffle_count : Option Int
  selected_game_ids : Option (List Int)
  icebreaker_game_id : Option Int
  include_history : Option Bool
  include_footprint : Option Bool
  include_regions : Option Bool
  include_culture : Option Bool
deriving DecidableEq, Repr

/-- The icebreaker resolution of `slide_builder.build_slides` (lines 95-98):
`if icebreaker_game_id:` is Python truthiness, so an absent key, a zero id,
and an id with no stored game all leave the icebreaker unresolved. -/
def resolveIcebreaker (db : Db) (config : Config) : Option Game :=
  match config.icebreaker_game_id with
  | some gid => if gid ≠ 0 then get_game db gid else none
  | none => none

/-- `slide_builder.build_slides`: resolves the presentation, brand and
facility, resolves the selected games and the icebreaker game, and calls
`generate_av3_slides` with `config.get("raffle_count", 2)`.

The facility-logo loop is embedded by its actual runtime behaviour:
`models.Asset` declares no `facility_id` column, so the loop body
`asset.facility_id == facility.id` raises `AttributeError` on the first
iteration whenever the brand has any logo asset; with no logo assets the
loop leaves `facility_logo = None`. -/
def build_slides (db : Db) (presentation_id : Int) (config : Config) :
    Except String (List SlideInstance) :=
  match get_presentation db presentation_id with
  | none => Except.error ("Presentation " ++ toString presentation_id ++ " not found")
  | some presentation =>
    match get_brand db presentation.brand_id, get_facility db presentation.facility_id with
    | some brand, some facility =>
      let assets := get_assets db brand.id "logo"
      if assets.isEmpty then
        let facility_logo : Option String := none
        let selected_game_ids := config.selected_game_ids.getD []
        let games := selected_game_ids.filterMap (get_game db)
        let icebreaker_game := resolveIcebreaker db config
        Except.ok (generate_av3_slides brand facility facility_logo icebreaker_game
          games (config.raffle_count.getD 2))
      else
        Except.error "AttributeError: Asset has no attribute facility_id"
    | _, _ => Except.error "Missing brand or facility data"

/-- `schemas.BuildSlidesRequest`: the HTTP build-request body.  Field
defaults (`raffle_count = 0`, game list absent, all toggles `True`) are
applied at parse time, so fields here carry the parsed values.  The schema
declares no `icebreaker_game_id` field. -/
structure BuildSlidesRequest where
  raffle_count : Int
  selected_game_ids : Option (List Int)
  include_history : Bool
  include_footprint : Bool
  include_regions : Bool
  include_culture : Bool
deriving DecidableEq, Repr

/-- `request.model_dump()` in `main.build_presentation_slides`: the config
dict holds exactly the schema's fields, so `icebreaker_game_id` is absent. -/
def requestToConfig (r : BuildSlidesRequest) : Config :=
  { raffle_count := some r.raffle_count,
    selected_game_ids := r.selected_game_ids,
    icebreaker_game_id := none,
    include_history := some r.include_history,
    include_footprint := some r.include_footprint,
    include_regions := some r.include_regions,
    include_culture := some r.include_culture }

/-- `schemas.BuildSlidesResponse`. -/
structure BuildSlidesResponse where
  presentation_id : Int
  slides_created : Nat
  slide_types : List String
deriving DecidableEq, Repr

/-- `main.build_presentation_slides`: the POST
`/api/presentations/{id}/build-slides` handler body. -/
def build_presentation_slides (db : Db) (presentation_id : Int)
    (request : BuildSlidesRequest) : Except String BuildSlidesResponse :=
  match build_slides db presentation_id (requestToConfig request) with
  | Except.ok slides =>
    Except.ok { presentation_id := presentation_id,
                slides_created := slides.length,
                slide_types := slideTypes slides }
  | Except.error e => Except.error e

/-- Python truthiness of `f.latitude and f.longitude` in
`presentation_export.add_footprint_map`: a coordinate counts only when it is
neither `None` nor zero. -/
def hasCoords (f : Facility) : Bool :=
  (match f.latitude with | some v => v != 0 | none => false) &&
  (match f.longitude with | some v => v != 0 | none => false)

/-- Observable outcome of one `add_footprint_map` call: whether a map
picture was added to the slide, whether an exception escaped to the caller,
whether the temporary image file is still on disk afterwards, and how many
markers the map request carried. -/
structure MapRenderResult where
  mapAdded : Bool
  raised : Bool
  tmpFileLeft : Bool
  markerCount : Nat
deriving DecidableEq, Repr

/-- `presentation_export.add_footprint_map`, with its two effectful steps
abstracted as outcome oracles: `fetchOk` is whether the `urlopen` download
succeeds (false covers timeout, non-2xx and read errors), and
`addPictureOk` is whether `slide.shapes.add_picture` succeeds (false covers
a malformed downloaded image).  Control flow follows the source: an empty
coordinate list returns early; markers are `facilities_with_coords[:50]`;
the whole body sits in one `try/except Exception` so nothing propagates;
the temporary file is written after a successful fetch and unlinked only on
the all-success path. -/
def add_footprint_map (facilities : List Facility) (fetchOk : Bool)
    (addPictureOk : Bool) : MapRenderResult :=
  let facilities_with_coords := facilities.filter hasCoords
  if facilities_with_coords.isEmpty then
    { mapAdded := false, raised := false, tmpFileLeft := false, markerCount := 0 }
  else
    let markers := facilities_with_coords.take 50
    if fetchOk then
      if addPictureOk then
        { mapAdded := true, raised := false, tmpFileLeft := false,
          markerCount := markers.length }
      else
        { mapAdded := false, raised := false, tmpFileLeft := true,
          markerCount := markers.length }
    else
      { mapAdded := false, raised := false, tmpFileLeft := false,
        markerCount := markers.length }

/-- Modelled from the spec: the pure function `distribute(count,
breakpoints, totalSlots)` of §4.2 (RaffleDistributor).  No such function
exists anywhere under src/ — raffle placement in `generate_av3_slides` is
hardcoded — so this definition follows the spec's words: the valid
breakpoints are those in `[0, totalSlots)`, taken in ascending order
without duplicates, and at most `count` of them are used; `count ≤ 0`
yields no insertions. -/
def distribute (count : Int) (breakpoints : List Nat) (totalSlots : Nat) :
    List Nat :=
  if count ≤ 0 then []
  else ((List.range totalSlots).filter (fun i => breakpoints.contains i)).take count.toNat

/-- Sample brand used in concrete witnesses and counterexamples. -/
def sampleBrand : Brand :=
  { id := 1, name := "Cascadia", primary_color := some "#0b7280",
    logo_url := some "/static/cascadia.png" }

/-- Sample facility used in concrete witnesses and counterexamples. -/
def sampleFacility : Facility :=
  { id := 1, name := "Prestige Post-Acute", latitude := some 45,
    longitude := some (-122) }

/-- Sample game used in concrete witnesses. -/
def sampleGame : Game :=
  { id := 7, title := "Trivia", rules := some "Answer fast" }

/-- Sample database snapshot: one presentation wired to the sample brand and
facility, no logo assets, one stored game. -/
def sampleDb : Db :=
  { presentations := [{ id := 1, brand_id := 1, facility_id := 1 }],
    brands := [sampleBrand],
    facilities := [sampleFacility],
    assets := [],
    games := [sampleGame] }

/-- A value slide as `generate_av3_slides` constructs it inside the
`enumerate(CORE_VALUES)` loop, with explicit order `o`. -/
def valueSlide (pc v : String) (o : Nat) : SlideInstance :=
  { order := o, slide_type := "Value" ++ pyTitle v,
    payload := [("value", JVal.str v), ("primary_color", JVal.str pc)],
    notes := "Value: " ++ v }

/-- The payload of the `i`-th challenge slide (0-based) as
`generate_av3_slides` constructs it: from the `i`-th selected game when one
exists, else from `DEFAULT_CHALLENGES[i]`.  (The builder's cursor equals
`min i (number of selected games)` at slot `i`, so slot `i` is bound to
selected game `i` exactly when `i` is in range.) -/
def challengeSlotPayload (pc : String) (gs : List Game) (i : Nat) :
    List (String × JVal) :=
  match gs.get? i with
  | some game =>
    [("title", JVal.str ("Challenge " ++ toString (i + 1) ++ ": " ++ game.title)),
     ("game_title", JVal.str game.title),
     ("rules", jstrOpt game.rules),
     ("value", JVal.str (CORE_VALUES.getD i "")),
     ("challenge_number", JVal.num (Int.ofNat (i + 1))),
     ("primary_color", JVal.str pc)]
  | none =>
    let dflt := (DEFAULT_CHALLENGES.get? i).getD { title := "", value := "", rules := "" }
    [("title", JVal.str ("Challenge " ++ toString (i + 1) ++ ": " ++ dflt.title)),
     ("game_title", JVal.str dflt.title),
     ("rules", JVal.str dflt.rules),
     ("value", JVal.str (CORE_VALUES.getD i "")),
     ("challenge_number", JVal.num (Int.ofNat (i + 1))),
     ("primary_color", JVal.str pc)]

/-- The speaker notes of the `i`-th challenge slide. -/
def challengeNotes (gs : List Game) (i : Nat) : String :=
  match gs.get? i with
  | some game => "Challenge " ++ toString (i + 1) ++ ": " ++ game.title
  | none =>
    "Challenge " ++ toString (i + 1) ++ ": " ++
      ((DEFAULT_CHALLENGES.get? i).getD { title := "", value := "", rules := "" }).title

/-- The `i`-th challenge slide with explicit order `o`. -/
def challengeSlide (pc : String) (gs : List Game) (i : Nat) (o : Nat) : SlideInstance :=
  { order := o, slide_type := "ChallengeGame",
    payload := challengeSlotPayload pc gs i,
    notes := challengeNotes gs i }

/-- Closed form of the ten slides the value/challenge loop appends, starting
at order `off`. -/
def vcBlock (pc : String) (gs : List Game) (off : Nat) : List SlideInstance :=
  [valueSlide pc "FAMILY" off, challengeSlide pc gs 0 (off + 1),
   valueSlide pc "OWNERSHIP" (off + 2), challengeSlide pc gs 1 (off + 3),
   valueSlide pc "RESPONSIBILITY" (off + 4), challengeSlide pc gs 2 (off + 5),
   valueSlide pc "CELEBRATION" (off + 6), challengeSlide pc gs 3 (off + 7),
   valueSlide pc "EXPERIENCE" (off + 8), challengeSlide pc gs 4 (off + 9)]

/-- A build configuration whose four `include_*` toggles are all `false`
(as the API would produce from a request that disables every content
block), with `raffle_count = 2` and no games. -/
def togglesOffConfig : Config :=
  { raffle_count := some 2, selected_game_ids := none, icebreaker_game_id := none,
    include_history := some false, include_footprint := some false,
    include_regions := some false, include_culture := some false }

/-- The same configuration with all toggles `true`. -/
def togglesOnConfig : Config :=
  { raffle_count := some 2, selected_game_ids := none, icebreaker_game_id := none,
    include_history := some true, include_footprint := some true,
    include_regions := some true, include_culture := some true }

/-- A build request with every field at its schema default. -/
def sampleRequest : BuildSlidesRequest :=
  { raffle_count := 0, selected_game_ids := none,
    include_history := true, include_footprint := true,
    include_regions := true, include_culture := true }

/-! ### Helper lemmas about the builder -/

lemma core_enum : CORE_VALUES.enum =
    [(0, "FAMILY"), (1, "OWNERSHIP"), (2, "RESPONSIBILITY"),
     (3, "CELEBRATION"), (4, "EXPERIENCE")] := rfl

lemma vcStep_types (pc : String) (gs : List Game) (a : List SlideInstance × Nat)
    (p : Nat × String) :
    ((vcStep pc gs a p).1).map (fun s => s.slide_type)
      = a.1.map (fun s => s.slide_type) ++ ["Value" ++ pyTitle p.2, "ChallengeGame"] := by
  unfold vcStep
  split <;> simp

lemma vcStep_length (pc : String) (gs : List Game) (a : List SlideInstance × Nat)
    (p : Nat × String) :
    ((vcStep pc gs a p).1).length = a.1.length + 2 := by
  unfold vcStep
  split <;> simp

lemma vcStep_colors (pc : String) (gs : List Game) (a : List SlideInstance × Nat)
    (p : Nat × String) :
    ((vcStep pc gs a p).1).map (fun s => (s.slide_type, s.payload.lookup "primary_color"))
      = a.1.map (fun s => (s.slide_type, s.payload.lookup "primary_color"))
        ++ [("Value" ++ pyTitle p.2, some (JVal.str pc)), ("ChallengeGame", some (JVal.str pc))] := by
  unfold vcStep
  split <;> simp [List.lookup]

lemma fold_closed (pc : String) (gs : List Game) (s : List SlideInstance) :
    CORE_VALUES.enum.foldl (vcStep pc gs) (s, 0) =
      (s ++ vcBlock pc gs s.length, min 5 gs.length) := by
  rcases gs with _ | ⟨g0, _ | ⟨g1, _ | ⟨g2, _ | ⟨g3, _ | ⟨g4, rest⟩⟩⟩⟩⟩ <;>
    simp [core_enum, vcStep, vcBlock, valueSlide, challengeSlide, challengeSlotPayload,
      challengeNotes, Nat.add_assoc, Nat.min_def] <;> decide

lemma slideTypes_generate (b : Brand) (f : Facility) (l : Option String)
    (ib : Option Game) (gs : List Game) (c : Int) :
    slideTypes (generate_av3_slides b f l ib gs c) =
      ["TitleSlide", "WelcomeSlide", "IcebreakerGame", "HistoryIntro", "HistoryTimeline",
       "FootprintStats", "RegionsMap", "CultureIntro", "CultureComparison", "FieldIntro"]
      ++ (if 1 ≤ c then ["RaffleBumper"] else [])
      ++ ["TransitionSlide", "ValueFamily", "ChallengeGame", "ValueOwnership", "ChallengeGame",
          "ValueResponsibility", "ChallengeGame", "ValueCelebration", "ChallengeGame",
          "ValueExperience", "ChallengeGame", "ThreePillars"]
      ++ (if 2 ≤ c then ["RaffleBumper"] else [])
      ++ ["EndSlide"] := by
  cases ib <;> by_cases h1 : (1:Int) ≤ c <;> by_cases h2 : (2:Int) ≤ c <;>
    simp [slideTypes, generate_av3_slides, av3IcebreakerSlide, h1, h2, core_enum,
      vcStep_types, pyTitle]

lemma generate_length (b : Brand) (f : Facility) (l : Option String)
    (ib : Option Game) (gs : List Game) (c : Int) :
    (generate_av3_slides b f l ib gs c).length =
      23 + (if 1 ≤ c then 1 else 0) + (if 2 ≤ c then 1 else 0) := by
  cases ib <;> by_cases h1 : (1:Int) ≤ c <;> by_cases h2 : (2:Int) ≤ c <;>
    simp [generate_av3_slides, av3IcebreakerSlide, h1, h2, core_enum, vcStep_length]

lemma challenges_generate (b : Brand) (f : Facility) (l : Option String)
    (ib : Option Game) (gs : List Game) (c : Int) :
    ((generate_av3_slides b f l ib gs c).filter
        (fun s => s.slide_type == "ChallengeGame")).map (fun s => s.payload) =
      (List.range 5).map
        (challengeSlotPayload (pyOrDefault b.primary_color "#0b7280") gs) := by
  cases ib <;> by_cases h1 : (1:Int) ≤ c <;> by_cases h2 : (2:Int) ≤ c <;>
    simp [generate_av3_slides, av3IcebreakerSlide, h1, h2, fold_closed, vcBlock,
      valueSlide, challengeSlide, pyTitle, List.range_succ, List.filter_append]

lemma icebreaker_at_2 (b : Brand) (f : Facility) (l : Option String)
    (ib : Option Game) (gs : List Game) (c : Int) :
    (generate_av3_slides b f l ib gs c).get? 2 =
      some (av3IcebreakerSlide (pyOrDefault b.primary_color "#0b7280") ib) := by
  by_cases h1 : (1:Int) ≤ c <;> by_cases h2 : (2:Int) ≤ c <;>
    simp [generate_av3_slides, h1, h2, fold_closed]

lemma build_slides_ok_elim (db : Db) (pid : Int) (cfg : Config)
    (slides : List SlideInstance) (P : List SlideInstance → Prop)
    (h : build_slides db pid cfg = Except.ok slides)
    (hP : ∀ brand facility gs, P (generate_av3_slides brand facility none
      (resolveIcebreaker db cfg) gs (cfg.raffle_count.getD 2))) :
    P slides := by
  unfold build_slides at h
  split at h
  · exact absurd h (by simp)
  · split at h
    · dsimp only at h
      split at h
      · simp only [Except.ok.injEq] at h
        subst h
        exact hP _ _ _
      · exact absurd h (by simp)
    · exact absurd h (by simp)

lemma content_types_mem (b : Brand) (f : Facility) (l : Option String)
    (ib : Option Game) (gs : List Game) (c : Int) :
    "HistoryIntro" ∈ slideTypes (generate_av3_slides b f l ib gs c) ∧
    "HistoryTimeline" ∈ slideTypes (generate_av3_slides b f l ib gs c) ∧
    "FootprintStats" ∈ slideTypes (generate_av3_slides b f l ib gs c) ∧
    "RegionsMap" ∈ slideTypes (generate_av3_slides b f l ib gs c) ∧
    "CultureIntro" ∈ slideTypes (generate_av3_slides b f l ib gs c) ∧
    "CultureComparison" ∈ slideTypes (generate_av3_slides b f l ib gs c) := by
  simp only [slideTypes_generate]
  by_cases h1 : (1:Int) ≤ c <;> by_cases h2 : (2:Int) ≤ c <;> simp [h1, h2]

lemma icebreaker_count_one (b : Brand) (f : Facility) (l : Option String)
    (ib : Option Game) (gs : List Game) (c : Int) :
    (slideTypes (generate_av3_slides b f l ib gs c)).count "IcebreakerGame" = 1 := by
  simp only [slideTypes_generate]
  by_cases h1 : (1:Int) ≤ c <;> by_cases h2 : (2:Int) ≤ c <;> simp [h1, h2]

lemma raffle_count_eq (b : Brand) (f : Facility) (l : Option String)
    (ib : Option Game) (gs : List Game) (c : Int) :
    (slideTypes (generate_av3_slides b f l ib gs c)).count "RaffleBumper" =
      (min c 2).toNat := by
  simp only [slideTypes_generate]
  by_cases h1 : (1:Int) ≤ c <;> by_cases h2 : (2:Int) ≤ c <;> simp [h1, h2] <;> omega

/-! ### Claim theorems -/

/-- C1: the claim says every build yields order values exactly `0..n-1`.
The code violates it: with `raffle_count = 0` (the request-schema default)
the transition slide still carries the hardcoded order `11`, so the
persisted orders are `[0..9, 11, 11, 12..22]` — a gap at `10` and a
duplicate `11` — which is not `0..22`.  Every other slide after the
conditional raffle uses `len(slides)`, so the hardcoded `11` is a slip in
the code rather than intent. -/
theorem C1_transition_order_bug :
    (bulk_create_slides 1 (generate_av3_slides sampleBrand sampleFacility none none [] 0)).map
        (fun s => s.order) =
      [0, 1, 2, 3, 4, 5, 6, 7, 8, 9, 11, 11, 12, 13, 14, 15, 16, 17, 18, 19, 20, 21, 22] ∧
    ¬ (bulk_create_slides 1 (generate_av3_slides sampleBrand sampleFacility none none [] 0)).map
        (fun s => s.order) =
      List.range (bulk_create_slides 1
        (generate_av3_slides sampleBrand sampleFacility none none [] 0)).length := by
  constructor <;> decide

/-- C2 (amended): the builder ignores agenda templates entirely; with
`raffle_count = 0` and no games selected it emits, for every brand,
facility, logo and icebreaker, the fixed 23-slide AV3 sequence — no Raffle
slides, but five ChallengeGame slides bound to the built-in defaults. -/
theorem C2_fixed_av3_sequence (b : Brand) (f : Facility) (l : Option String)
    (ib : Option Game) :
    slideTypes (generate_av3_slides b f l ib [] 0) =
      ["TitleSlide", "WelcomeSlide", "IcebreakerGame", "HistoryIntro", "HistoryTimeline",
       "FootprintStats", "RegionsMap", "CultureIntro", "CultureComparison", "FieldIntro",
       "TransitionSlide", "ValueFamily", "ChallengeGame", "ValueOwnership", "ChallengeGame",
       "ValueResponsibility", "ChallengeGame", "ValueCelebration", "ChallengeGame",
       "ValueExperience", "ChallengeGame", "ThreePillars", "EndSlide"] := by
  rw [slideTypes_generate]
  decide

/-- C2 (counterexample): the claim promises exactly 6 slides with no
Challenge slides; the build with `raffle_count = 0` and no games yields 23
slides including ChallengeGame slides. -/
theorem C2_counterexample :
    (slideTypes (generate_av3_slides sampleBrand sampleFacility none none [] 0)).length = 23 ∧
    "ChallengeGame" ∈ slideTypes (generate_av3_slides sampleBrand sampleFacility none none [] 0) := by
  constructor <;> decide

/-- C3 (counterexample): with three valid breakpoints and `count = 3` the
spec's `distribute` places three raffles, but the build with
`raffle_count = 3` emits only two RaffleBumper slides — raffle placement in
the code is not `distribute`. -/
theorem C3_counterexample :
    distribute 3 [10, 15, 22] 25 = [10, 15, 22] ∧
    (slideTypes (generate_av3_slides sampleBrand sampleFacility none none [] 3)).count
      "RaffleBumper" = 2 := by
  constructor <;> decide

/-- C3 (amended): raffle placement is hardcoded at two fixed template
positions — index 10 (after FieldIntro) when `count ≥ 1` and index 23
(after ThreePillars) when `count ≥ 2`.  Exactly `min(count, 2)` raffle
slides are emitted (`count ≤ 0` yields none, excess is dropped), so the
two insertion points are consumed in ascending order with at most one
raffle each. -/
theorem C3_raffle_placement (b : Brand) (f : Facility) (l : Option String)
    (ib : Option Game) (gs : List Game) (c : Int) :
    ((slideTypes (generate_av3_slides b f l ib gs c)).count "RaffleBumper" = (min c 2).toNat) ∧
    ((slideTypes (generate_av3_slides b f l ib gs c)).get? 10 =
      (if 1 ≤ c then some "RaffleBumper" else some "TransitionSlide")) ∧
    ((slideTypes (generate_av3_slides b f l ib gs c)).get? 23 =
      (if 2 ≤ c then some "RaffleBumper" else if 1 ≤ c then some "EndSlide" else none)) := by
  refine ⟨raffle_count_eq b f l ib gs c, ?_, ?_⟩ <;>
    simp only [slideTypes_generate] <;>
    by_cases h1 : (1:Int) ≤ c <;> by_cases h2 : (2:Int) ≤ c <;> simp [h1, h2] <;> omega

/-- C4 (counterexample): a configuration with every `include_*` toggle set
to `false` still builds all 25 AV3 slides, including the history,
footprint, regions and culture slides the claim says would be omitted. -/
theorem C4_counterexample :
    Except.map slideTypes (build_slides sampleDb 1 togglesOffConfig) =
      Except.ok AV3_SLIDE_TYPES ∧
    "HistoryIntro" ∈ AV3_SLIDE_TYPES ∧ "FootprintStats" ∈ AV3_SLIDE_TYPES ∧
    "RegionsMap" ∈ AV3_SLIDE_TYPES ∧ "CultureIntro" ∈ AV3_SLIDE_TYPES := by
  refine ⟨rfl, ?_, ?_, ?_, ?_⟩ <;> decide

/-- C4 (amended): the `include_history/footprint/regions/culture` toggles
accepted by the request schema have no effect — two configurations that
agree on `raffle_count`, `selected_game_ids` and `icebreaker_game_id`
build identical slide lists, and every successful build contains all the
content-block slides; ReusableContent is never consulted at build time. -/
theorem C4_toggles_no_effect (db : Db) (pid : Int) (c1 c2 : Config)
    (hr : c1.raffle_count = c2.raffle_count)
    (hs : c1.selected_game_ids = c2.selected_game_ids)
    (hi : c1.icebreaker_game_id = c2.icebreaker_game_id) :
    build_slides db pid c1 = build_slides db pid c2 ∧
    ∀ slides, build_slides db pid c1 = Except.ok slides →
      ("HistoryIntro" ∈ slideTypes slides ∧ "HistoryTimeline" ∈ slideTypes slides ∧
       "FootprintStats" ∈ slideTypes slides ∧ "RegionsMap" ∈ slideTypes slides ∧
       "CultureIntro" ∈ slideTypes slides ∧ "CultureComparison" ∈ slideTypes slides) := by
  constructor
  · obtain ⟨r1, s1, i1, a1, b1, d1, e1⟩ := c1
    obtain ⟨r2, s2, i2, a2, b2, d2, e2⟩ := c2
    dsimp only at hr hs hi
    subst hr
    subst hs
    subst hi
    rfl
  · intro slides h
    exact build_slides_ok_elim db pid c1 slides
      (fun sl => "HistoryIntro" ∈ slideTypes sl ∧ "HistoryTimeline" ∈ slideTypes sl ∧
        "FootprintStats" ∈ slideTypes sl ∧ "RegionsMap" ∈ slideTypes sl ∧
        "CultureIntro" ∈ slideTypes sl ∧ "CultureComparison" ∈ slideTypes sl) h
      (fun brand facility gs => content_types_mem brand facility none
        (resolveIcebreaker db c1) gs (c1.raffle_count.getD 2))

/-- C4 (witness): the amended theorem applied to two concrete
configurations differing only in their toggles. -/
theorem C4_witness :
    build_slides sampleDb 1 togglesOffConfig = build_slides sampleDb 1 togglesOnConfig ∧
    "HistoryIntro" ∈ slideTypes (generate_av3_slides sampleBrand sampleFacility none none [] 2) :=
  ⟨(C4_toggles_no_effect sampleDb 1 togglesOffConfig togglesOnConfig rfl rfl rfl).1,
   ((C4_toggles_no_effect sampleDb 1 togglesOffConfig togglesOnConfig rfl rfl rfl).2
     (generate_av3_slides sampleBrand sampleFacility none none [] 2) rfl).1⟩

/-- C5: slide building is deterministic — builds from equal database
snapshots and equal configurations produce identical slide lists (payloads
included) and identical ordered slide-type sequences. -/
theorem C5_deterministic (db1 db2 : Db) (pid : Int) (c1 c2 : Config)
    (hdb : db1 = db2) (hc : c1 = c2) :
    build_slides db1 pid c1 = build_slides db2 pid c2 ∧
    Except.map slideTypes (build_slides db1 pid c1) =
      Except.map slideTypes (build_slides db2 pid c2) := by
  subst hdb
  subst hc
  exact ⟨rfl, rfl⟩

/-- C5 (witness): determinism at a concrete presentation build. -/
theorem C5_witness :
    build_slides sampleDb 1 togglesOnConfig = build_slides sampleDb 1 togglesOnConfig ∧
    Except.map slideTypes (build_slides sampleDb 1 togglesOnConfig) =
      Except.map slideTypes (build_slides sampleDb 1 togglesOnConfig) :=
  C5_deterministic sampleDb sampleDb 1 togglesOnConfig togglesOnConfig rfl rfl

/-- C6: the five challenge slots bind the supplied games in the supplied
order — slot `i` carries the payload of selected game `i` when `i` is in
range and the payload of `DEFAULT_CHALLENGES[i]` otherwise (the single
implemented exhaustion policy, applied uniformly to every remaining
slot) — and the total slide count never depends on the game list. -/
theorem C6_challenge_binding (b : Brand) (f : Facility) (l : Option String)
    (ib : Option Game) (gs : List Game) (c : Int) :
    (((generate_av3_slides b f l ib gs c).filter
        (fun s => s.slide_type == "ChallengeGame")).map (fun s => s.payload) =
      (List.range 5).map (challengeSlotPayload (pyOrDefault b.primary_color "#0b7280") gs)) ∧
    (∀ gs2 : List Game,
      (generate_av3_slides b f l ib gs c).length =
        (generate_av3_slides b f l ib gs2 c).length) := by
  refine ⟨challenges_generate b f l ib gs c, fun gs2 => ?_⟩
  rw [generate_length, generate_length]

/-- C7 (counterexample): the claim says every payload — including title,
transition and end slides — carries the resolved theme colors.  In a
concrete build the TransitionSlide payload (index 11) is empty and the
TitleSlide and EndSlide payloads have no `primary_color` entry. -/
theorem C7_counterexample :
    ((generate_av3_slides sampleBrand sampleFacility none none [] 2).map
        (fun s => (s.slide_type, s.payload.lookup "primary_color"))).get? 11 =
      some ("TransitionSlide", none) ∧
    ((generate_av3_slides sampleBrand sampleFacility none none [] 2).map
        (fun s => (s.slide_type, s.payload.lookup "primary_color"))).get? 0 =
      some ("TitleSlide", none) ∧
    ((generate_av3_slides sampleBrand sampleFacility none none [] 2).map
        (fun s => (s.slide_type, s.payload.lookup "primary_color"))).get? 24 =
      some ("EndSlide", none) := by
  refine ⟨?_, ?_, ?_⟩ <;> decide

/-- C7 (amended): the exact per-slide color profile — all content slides
(Welcome, Icebreaker, HistoryTimeline, FootprintStats, RegionsMap,
CultureIntro, CultureComparison, FieldIntro, the Value and Challenge
slides, ThreePillars) carry the brand's resolved primary color; the
TitleSlide, HistoryIntro, RaffleBumper, TransitionSlide and EndSlide
payloads carry no color. -/
theorem C7_color_profile (b : Brand) (f : Facility) (l : Option String)
    (ib : Option Game) (gs : List Game) (c : Int) :
    (generate_av3_slides b f l ib gs c).map
        (fun s => (s.slide_type, s.payload.lookup "primary_color")) =
      (let pc := some (JVal.str (pyOrDefault b.primary_color "#0b7280"))
       [("TitleSlide", none), ("WelcomeSlide", pc), ("IcebreakerGame", pc),
        ("HistoryIntro", none), ("HistoryTimeline", pc), ("FootprintStats", pc),
        ("RegionsMap", pc), ("CultureIntro", pc), ("CultureComparison", pc),
        ("FieldIntro", pc)]
       ++ (if 1 ≤ c then [("RaffleBumper", none)] else [])
       ++ [("TransitionSlide", none), ("ValueFamily", pc), ("ChallengeGame", pc),
           ("ValueOwnership", pc), ("ChallengeGame", pc), ("ValueResponsibility", pc),
           ("ChallengeGame", pc), ("ValueCelebration", pc), ("ChallengeGame", pc),
           ("ValueExperience", pc), ("ChallengeGame", pc), ("ThreePillars", pc)]
       ++ (if 2 ≤ c then [("RaffleBumper", none)] else [])
       ++ [("EndSlide", none)]) := by
  cases ib <;> by_cases h1 : (1:Int) ≤ c <;> by_cases h2 : (2:Int) ≤ c <;>
    simp [generate_av3_slides, av3IcebreakerSlide, h1, h2, core_enum, vcStep_colors,
      pyTitle, List.lookup]

/-- C8: the statistics-slide map overlay carries at most 50 facility
markers, every fetch failure is absorbed inside `add_footprint_map` (no
exception reaches the caller), and a failed fetch leaves the slide without
a map layer. -/
theorem C8_map_failures_contained (facs : List Facility) (fetchOk addPictureOk : Bool) :
    ((add_footprint_map facs fetchOk addPictureOk).markerCount ≤ 50) ∧
    ((add_footprint_map facs fetchOk addPictureOk).raised = false) ∧
    (fetchOk = false → (add_footprint_map facs fetchOk addPictureOk).mapAdded = false) := by
  unfold add_footprint_map
  by_cases he : (facs.filter hasCoords).isEmpty <;> cases fetchOk <;> cases addPictureOk <;>
    simp [he, List.length_take]

/-- C8 (witness): a concrete timed-out fetch — at most 50 markers, nothing
raised, no map layer. -/
theorem C8_witness :
    ((add_footprint_map [sampleFacility] false true).markerCount ≤ 50) ∧
    ((add_footprint_map [sampleFacility] false true).raised = false) ∧
    ((add_footprint_map [sampleFacility] false true).mapAdded = false) :=
  ⟨(C8_map_failures_contained [sampleFacility] false true).1,
   (C8_map_failures_contained [sampleFacility] false true).2.1,
   (C8_map_failures_contained [sampleFacility] false true).2.2 rfl⟩

/-- C9 (counterexample): when the fetch succeeds but the subsequent
`add_picture` step raises, the `except` block swallows the exception and
the temporary image file is left on disk — contradicting the claim that
every exit path deletes it. -/
theorem C9_counterexample :
    (add_footprint_map [sampleFacility] true false).tmpFileLeft = true ∧
    (add_footprint_map [sampleFacility] true false).raised = false := by
  constructor <;> decide

/-- C9 (amended): the temporary file survives exactly one path — facilities
with coordinates exist, the fetch succeeded, and the render step raised.
On the success path it is unlinked, and on fetch failure it is never
created. -/
theorem C9_tmpfile_characterization (facs : List Facility) (fetchOk addPictureOk : Bool) :
    (add_footprint_map facs fetchOk addPictureOk).tmpFileLeft =
      (!(facs.filter hasCoords).isEmpty && fetchOk && !addPictureOk) := by
  unfold add_footprint_map
  by_cases he : (facs.filter hasCoords).isEmpty <;> cases fetchOk <;> cases addPictureOk <;>
    simp [he]

/-- C10: every build emits exactly one IcebreakerGame slide, at index 2
with order 2, whose content is the resolved icebreaker game when one was
supplied and found, and the built-in Musical Chairs fallback otherwise;
the HTTP request schema has no `icebreaker_game_id` field, so every build
that goes through the API handler uses the fallback. -/
theorem C10_icebreaker_fallback :
    (∀ r : BuildSlidesRequest, (requestToConfig r).icebreaker_game_id = none) ∧
    (∀ (b : Brand) (f : Facility) (l : Option String) (ib : Option Game)
       (gs : List Game) (c : Int),
      (slideTypes (generate_av3_slides b f l ib gs c)).count "IcebreakerGame" = 1 ∧
      (generate_av3_slides b f l ib gs c).get? 2 =
        some (av3IcebreakerSlide (pyOrDefault b.primary_color "#0b7280") ib)) ∧
    (∀ (db : Db) (pid : Int) (r : BuildSlidesRequest) (slides : List SlideInstance),
      build_slides db pid (requestToConfig r) = Except.ok slides →
      (slides.get? 2).map (fun s => (s.slide_type, s.payload.lookup "game_title")) =
        some ("IcebreakerGame", some (JVal.str "Musical Chairs"))) := by
  refine ⟨fun r => rfl,
    fun b f l ib gs c => ⟨icebreaker_count_one b f l ib gs c, icebreaker_at_2 b f l ib gs c⟩,
    ?_⟩
  intro db pid r slides h
  refine build_slides_ok_elim db pid (requestToConfig r) slides
    (fun sl => (sl.get? 2).map (fun s => (s.slide_type, s.payload.lookup "game_title")) =
      some ("IcebreakerGame", some (JVal.str "Musical Chairs"))) h ?_
  intro brand facility gs
  rw [icebreaker_at_2]
  rfl

/-- C10 (witness): a build through the API layer with the default request
produces the Musical Chairs icebreaker at index 2. -/
theorem C10_witness :
    (requestToConfig sampleRequest).icebreaker_game_id = none ∧
    ((generate_av3_slides sampleBrand sampleFacility none none [] 0).get? 2).map
        (fun s => (s.slide_type, s.payload.lookup "game_title")) =
      some ("IcebreakerGame", some (JVal.str "Musical Chairs")) :=
  ⟨C10_icebreaker_fallback.1 sampleRequest,
   C10_icebreaker_fallback.2.2 sampleDb 1 sampleRequest
     (generate_av3_slides sampleBrand sampleFacility none none [] 0) rfl⟩
